import Mathlib

/-!
# A verification development for parts of FBOSS

Shallow embedding of

* `fboss/agent/hw/sai/api/HwWriteBehavior.cpp` (the process-wide hardware write
  mode and its scoped override),
* `fboss/agent/platforms/sai/SaiPlatformInit.cpp` and `SaiBcmYampPlatform.cpp`
  (selection of the SAI platform object),
* the fan service's telemetry cache and control tick, whose implementation is
  not among the sources and is modelled from the specification.

Definitions come first, theorems afterwards.
-/

namespace Fboss

/-! ## HwWriteBehavior.cpp -/

/-- Modelled from the spec: the enumeration `HwWriteBehavior` is declared in
`HwWriteBehavior.h`, which is not among the sources. The source names one
enumerator, `WRITE` (the initial value of `curBehavior`); the specification
speaks of "apply writes" against "simulate writes". `SKIP` and `FAIL` stand for
the modes that do not write. Every statement below quantifies over all modes,
so none depends on how many enumerators there are. -/
inductive HwWriteBehavior
  | FAIL
  | SKIP
  | WRITE
  deriving DecidableEq

/-- The mutable state of the translation unit: the file-local
`std::atomic<HwWriteBehavior> curBehavior`. -/
structure HwState where
  curBehavior : HwWriteBehavior
  deriving DecidableEq

/-- State at program start: `curBehavior{HwWriteBehavior::WRITE}`. -/
def HwState.initial : HwState := ⟨HwWriteBehavior.WRITE⟩

/-- Source `setHwWiteBehavior` (sic): `curBehavior = behavior`. -/
def setHwWiteBehavior (behavior : HwWriteBehavior) (_s : HwState) : HwState :=
  ⟨behavior⟩

/-- Source `getHwWriteBehavior`: `return curBehavior`. -/
def getHwWriteBehavior (s : HwState) : HwWriteBehavior :=
  s.curBehavior

/-- The one data member of a `HwWriteBehaviorRAII` object. -/
structure HwWriteBehaviorRAII where
  prevBehavior_ : HwWriteBehavior
  deriving DecidableEq

/-- Constructor `HwWriteBehaviorRAII::HwWriteBehaviorRAII(behavior)`:
`prevBehavior_ = getHwWriteBehavior(); setHwWiteBehavior(behavior);`.
Returns the new object and the state after the constructor. -/
def HwWriteBehaviorRAII.construct (behavior : HwWriteBehavior) (s : HwState) :
    HwWriteBehaviorRAII × HwState :=
  let prevBehavior_ := getHwWriteBehavior s
  (⟨prevBehavior_⟩, setHwWiteBehavior behavior s)

/-- Destructor `HwWriteBehaviorRAII::~HwWriteBehaviorRAII()`:
`setHwWiteBehavior(prevBehavior_)`. -/
def HwWriteBehaviorRAII.destruct (self : HwWriteBehaviorRAII) (s : HwState) : HwState :=
  setHwWiteBehavior self.prevBehavior_ s

/-- What client code can do with this translation unit: read the mode, bring an
override into being, or end the life of a live override. `setHwWiteBehavior`
sits in an anonymous namespace, so clients cannot call it. -/
inductive HwOp
  | get
  | construct (behavior : HwWriteBehavior)
  | destruct (idx : Nat)
  deriving DecidableEq

/-- A running process: the mode flag and the overrides that are alive, the most
recently constructed first. -/
structure HwProc where
  hw : HwState
  live : List HwWriteBehaviorRAII
  deriving DecidableEq

/-- A fresh process: the flag has its initial value and no override exists. -/
def HwProc.initial : HwProc := ⟨HwState.initial, []⟩

/-- One client operation. `destruct idx` ends the override at position `idx` of
the live list (0 is the most recent); with no such override it does nothing. -/
def HwProc.step (p : HwProc) : HwOp → HwProc
  | HwOp.get => p
  | HwOp.construct behavior =>
      let r := HwWriteBehaviorRAII.construct behavior p.hw
      ⟨r.2, r.1 :: p.live⟩
  | HwOp.destruct idx =>
      match p.live.get? idx with
      | none => p
      | some r => ⟨r.destruct p.hw, p.live.eraseIdx idx⟩

/-- A sequence of client operations, left to right. -/
def HwProc.run (ops : List HwOp) (p : HwProc) : HwProc :=
  ops.foldl HwProc.step p

/-- Block-structured use of the override, as C++ automatic storage gives it:
`scope b body rest` is `{ HwWriteBehaviorRAII r(b); body } rest`. -/
inductive Scopes
  | done
  | scope (behavior : HwWriteBehavior) (body rest : Scopes)

/-- What an observer calling `getHwWriteBehavior()` sees around one scope: the
mode just before the override is constructed and the mode just after its
destructor has run. -/
structure ScopeExit where
  before : HwWriteBehavior
  after : HwWriteBehavior
  deriving DecidableEq

/-- Runs block-structured code: the constructor on entry to a scope, the body,
the destructor on exit, then what follows the scope. Returns the final state
and one `ScopeExit` per scope that was run. -/
def Scopes.run : Scopes → HwState → HwState × List ScopeExit
  | Scopes.done, s => (s, [])
  | Scopes.scope behavior body rest, s =>
      let before := getHwWriteBehavior s
      let r := HwWriteBehaviorRAII.construct behavior s
      let inner := body.run r.2
      let s3 := r.1.destruct inner.1
      let after := getHwWriteBehavior s3
      let outer := rest.run s3
      (outer.1, inner.2 ++ ⟨before, after⟩ :: outer.2)

/-- The same code as a flat sequence of client operations: each scope ends the
most recently constructed live override. -/
def Scopes.toOps : Scopes → List HwOp
  | Scopes.done => []
  | Scopes.scope behavior body rest =>
      HwOp.construct behavior :: (body.toOps ++ HwOp.destruct 0 :: rest.toOps)

/-- Number of scopes in a piece of block-structured code. -/
def Scopes.count : Scopes → Nat
  | Scopes.done => 0
  | Scopes.scope _ body rest => body.count + 1 + rest.count

/-! ## SaiPlatformInit.cpp and SaiBcmYampPlatform.cpp -/

/-- Modelled from the spec: the enumeration `PlatformMode` is declared outside the
sources (it reaches this file through `PlatformProductInfo.h`). These are the
22 enumerators that `chooseSaiPlatform` names, in the order it tests them, and
`other value` for an enumerator that it does not name, told apart by its
integer value; the final `return nullptr` of `chooseSaiPlatform` is the path
such a mode takes. -/
inductive PlatformMode
  | WEDGE100
  | WEDGE
  | GALAXY_FC
  | GALAXY_LC
  | WEDGE400
  | DARWIN
  | MINIPACK
  | YAMP
  | WEDGE400C
  | WEDGE400C_VOQ
  | WEDGE400C_FABRIC
  | CLOUDRIPPER
  | CLOUDRIPPER_VOQ
  | CLOUDRIPPER_FABRIC
  | FUJI
  | LASSEN
  | SANDIA
  | ELBERT
  | MERU400BIU
  | MERU400BIA
  | MERU400BFU
  | MONTBLANC
  | other (value : Int)
  deriving DecidableEq

/-- The classes derived from `SaiPlatform` that `chooseSaiPlatform` constructs,
and `external name` for a class constructed elsewhere (what `getLEBPlatform`
may hand back). -/
inductive SaiPlatformClass
  | SaiBcmWedge100Platform
  | SaiBcmWedge40Platform
  | SaiBcmGalaxyFCPlatform
  | SaiBcmGalaxyLCPlatform
  | SaiBcmWedge400Platform
  | SaiBcmDarwinPlatform
  | SaiBcmMinipackPlatform
  | SaiBcmYampPlatform
  | SaiWedge400CPlatform
  | SaiWedge400CVoqPlatform
  | SaiWedge400CFabricPlatform
  | SaiCloudRipperPlatform
  | SaiCloudRipperVoqPlatform
  | SaiCloudRipperFabricPlatform
  | SaiBcmFujiPlatform
  | SaiLassenPlatform
  | SaiSandiaPlatform
  | SaiBcmElbertPlatform
  | SaiMeru400biuPlatform
  | SaiMeru400biaPlatform
  | SaiMeru400bfuPlatform
  | SaiBcmMontblancPlatform
  | external (name : String)
  deriving DecidableEq

/-- The ASIC classes: `Tomahawk3Asic` is the one the sources construct, `external
name` any other class derived from `HwAsic`. -/
inductive HwAsicClass
  | Tomahawk3Asic
  | external (name : String)
  deriving DecidableEq

/-- An ASIC object as `setupAsic` constructs it: its class and the three
constructor arguments (`cfg::SwitchType` by its integer value, the optional
switch id, the optional `cfg::Range64` as its two bounds). -/
structure HwAsic where
  cls : HwAsicClass
  switchType : Int
  switchId : Option Int
  systemPortRange : Option (Int × Int)
  deriving DecidableEq

/-- What `chooseSaiPlatform` reads of a `PlatformProductInfo`: `getMode()`. -/
structure PlatformProductInfo where
  mode : PlatformMode
  deriving DecidableEq

/-- Source `PlatformProductInfo::getMode`. -/
def PlatformProductInfo.getMode (productInfo : PlatformProductInfo) : PlatformMode :=
  productInfo.mode

/-- A platform object: its dynamic class, the three constructor arguments it
was made from (`folly::MacAddress` as a number) and the member `asic_`, null
until `setupAsic` runs. -/
structure SaiPlatform where
  cls : SaiPlatformClass
  productInfo : PlatformProductInfo
  localMac : Nat
  platformMappingStr : String
  asic_ : Option HwAsic
  deriving DecidableEq

/-- The expression `std::make_unique<C>(std::move(productInfo), localMac,
platformMappingStr)` for a class `C` of the chain. -/
def makePlatform (cls : SaiPlatformClass) (productInfo : PlatformProductInfo)
    (localMac : Nat) (platformMappingStr : String) : SaiPlatform :=
  ⟨cls, productInfo, localMac, platformMappingStr, none⟩

/-- The type of `getLEBPlatform`, which is defined outside the sources: from
the three arguments to a handle, `none` being the null pointer. -/
abbrev PlatformBuilder := PlatformProductInfo → Nat → String → Option SaiPlatform

/-- Source `chooseSaiPlatform`. The functions `isLEB()` and `getLEBPlatform`
are defined outside the sources and are taken as parameters: the value
`isLEB()` returns and the function `getLEBPlatform`. `none` is `nullptr`. -/
def chooseSaiPlatform (isLEB : Bool) (getLEBPlatform : PlatformBuilder)
    (productInfo : PlatformProductInfo) (localMac : Nat) (platformMappingStr : String) :
    Option SaiPlatform :=
  if productInfo.getMode = PlatformMode.WEDGE100 then
    some (makePlatform SaiPlatformClass.SaiBcmWedge100Platform productInfo localMac platformMappingStr)
  else if productInfo.getMode = PlatformMode.WEDGE then
    some (makePlatform SaiPlatformClass.SaiBcmWedge40Platform productInfo localMac platformMappingStr)
  else if productInfo.getMode = PlatformMode.GALAXY_FC then
    some (makePlatform SaiPlatformClass.SaiBcmGalaxyFCPlatform productInfo localMac platformMappingStr)
  else if productInfo.getMode = PlatformMode.GALAXY_LC then
    some (makePlatform SaiPlatformClass.SaiBcmGalaxyLCPlatform productInfo localMac platformMappingStr)
  else if productInfo.getMode = PlatformMode.WEDGE400 then
    some (makePlatform SaiPlatformClass.SaiBcmWedge400Platform productInfo localMac platformMappingStr)
  else if productInfo.getMode = PlatformMode.DARWIN then
    some (makePlatform SaiPlatformClass.SaiBcmDarwinPlatform productInfo localMac platformMappingStr)
  else if productInfo.getMode = PlatformMode.MINIPACK then
    some (makePlatform SaiPlatformClass.SaiBcmMinipackPlatform productInfo localMac platformMappingStr)
  else if productInfo.getMode = PlatformMode.YAMP then
    some (makePlatform SaiPlatformClass.SaiBcmYampPlatform productInfo localMac platformMappingStr)
  else if productInfo.getMode = PlatformMode.WEDGE400C then
    if isLEB then
      getLEBPlatform productInfo localMac platformMappingStr
    else
      some (makePlatform SaiPlatformClass.SaiWedge400CPlatform productInfo localMac platformMappingStr)
  else if productInfo.getMode = PlatformMode.WEDGE400C_VOQ then
    some (makePlatform SaiPlatformClass.SaiWedge400CVoqPlatform productInfo localMac platformMappingStr)
  else if productInfo.getMode = PlatformMode.WEDGE400C_FABRIC then
    some (makePlatform SaiPlatformClass.SaiWedge400CFabricPlatform productInfo localMac platformMappingStr)
  else if productInfo.getMode = PlatformMode.CLOUDRIPPER then
    some (makePlatform SaiPlatformClass.SaiCloudRipperPlatform productInfo localMac platformMappingStr)
  else if productInfo.getMode = PlatformMode.CLOUDRIPPER_VOQ then
    some (makePlatform SaiPlatformClass.SaiCloudRipperVoqPlatform productInfo localMac platformMappingStr)
  else if productInfo.getMode = PlatformMode.CLOUDRIPPER_FABRIC then
    some (makePlatform SaiPlatformClass.SaiCloudRipperFabricPlatform productInfo localMac platformMappingStr)
  else if productInfo.getMode = PlatformMode.FUJI then
    some (makePlatform SaiPlatformClass.SaiBcmFujiPlatform productInfo localMac platformMappingStr)
  else if productInfo.getMode = PlatformMode.LASSEN then
    some (makePlatform SaiPlatformClass.SaiLassenPlatform productInfo localMac platformMappingStr)
  else if productInfo.getMode = PlatformMode.SANDIA then
    some (makePlatform SaiPlatformClass.SaiSandiaPlatform productInfo localMac platformMappingStr)
  else if productInfo.getMode = PlatformMode.ELBERT then
    some (makePlatform SaiPlatformClass.SaiBcmElbertPlatform productInfo localMac platformMappingStr)
  else if productInfo.getMode = PlatformMode.MERU400BIU then
    some (makePlatform SaiPlatformClass.SaiMeru400biuPlatform productInfo localMac platformMappingStr)
  else if productInfo.getMode = PlatformMode.MERU400BIA then
    some (makePlatform SaiPlatformClass.SaiMeru400biaPlatform productInfo localMac platformMappingStr)
  else if productInfo.getMode = PlatformMode.MERU400BFU then
    some (makePlatform SaiPlatformClass.SaiMeru400bfuPlatform productInfo localMac platformMappingStr)
  else if productInfo.getMode = PlatformMode.MONTBLANC then
    some (makePlatform SaiPlatformClass.SaiBcmMontblancPlatform productInfo localMac platformMappingStr)
  else
    none

/-- How a run of `initSaiPlatform` ends. -/
inductive InitOutcome
  | returned (platform : SaiPlatform)
  | fbossError (message : String)
  | nullDereference
  deriving DecidableEq

/-- Source `initSaiPlatform`, from the point where `productInfo` has been
initialised and `localMac` read (both are made by code outside the sources and
are parameters here). `overridePath` is `FLAGS_platform_mapping_override_path`,
`readFile` stands for `folly::readFile` (`none` when it fails), and `init` for
`SaiPlatform::init` with its two arguments applied. The call `platform->init`
is made on the handle `chooseSaiPlatform` returned, with no test for null. -/
def initSaiPlatform (isLEB : Bool) (getLEBPlatform : PlatformBuilder)
    (readFile : String → Option String) (init : SaiPlatform → SaiPlatform)
    (productInfo : PlatformProductInfo) (localMac : Nat) (overridePath : String) :
    InitOutcome :=
  let mapping : Except String String :=
    if overridePath ≠ "" then
      match readFile overridePath with
      | none => Except.error ("unable to read " ++ overridePath)
      | some text => Except.ok text
    else
      Except.ok ""
  match mapping with
  | Except.error message => InitOutcome.fbossError message
  | Except.ok platformMappingStr =>
      match chooseSaiPlatform isLEB getLEBPlatform productInfo localMac platformMappingStr with
      | none => InitOutcome.nullDereference
      | some platform => InitOutcome.returned (init platform)

/-- Source `SaiBcmYampPlatform::setupAsic`:
`asic_ = std::make_unique<Tomahawk3Asic>(switchType, switchId, systemPortRange)`. -/
def SaiBcmYampPlatform.setupAsic (self : SaiPlatform) (switchType : Int)
    (switchId : Option Int) (systemPortRange : Option (Int × Int)) : SaiPlatform :=
  { self with asic_ := some ⟨HwAsicClass.Tomahawk3Asic, switchType, switchId, systemPortRange⟩ }

/-- Source `SaiBcmYampPlatform::getAsic`: `return asic_.get()`. -/
def SaiBcmYampPlatform.getAsic (self : SaiPlatform) : Option HwAsic :=
  self.asic_

/-- The modes `chooseSaiPlatform` tests for, in the order of its chain. -/
def chainModes : List PlatformMode :=
  [PlatformMode.WEDGE100,
   PlatformMode.WEDGE,
   PlatformMode.GALAXY_FC,
   PlatformMode.GALAXY_LC,
   PlatformMode.WEDGE400,
   PlatformMode.DARWIN,
   PlatformMode.MINIPACK,
   PlatformMode.YAMP,
   PlatformMode.WEDGE400C,
   PlatformMode.WEDGE400C_VOQ,
   PlatformMode.WEDGE400C_FABRIC,
   PlatformMode.CLOUDRIPPER,
   PlatformMode.CLOUDRIPPER_VOQ,
   PlatformMode.CLOUDRIPPER_FABRIC,
   PlatformMode.FUJI,
   PlatformMode.LASSEN,
   PlatformMode.SANDIA,
   PlatformMode.ELBERT,
   PlatformMode.MERU400BIU,
   PlatformMode.MERU400BIA,
   PlatformMode.MERU400BFU,
   PlatformMode.MONTBLANC]

/-- The registry the specification asks for, one entry per mode: the mode and
the function that builds its platform. The entry of `WEDGE400C` is the body of
that branch of the chain. -/
def platformRegistry (isLEB : Bool) (getLEBPlatform : PlatformBuilder) :
    List (PlatformMode × PlatformBuilder) :=
  [(PlatformMode.WEDGE100, fun productInfo localMac platformMappingStr =>
      some (makePlatform SaiPlatformClass.SaiBcmWedge100Platform productInfo localMac platformMappingStr)),
   (PlatformMode.WEDGE, fun productInfo localMac platformMappingStr =>
      some (makePlatform SaiPlatformClass.SaiBcmWedge40Platform productInfo localMac platformMappingStr)),
   (PlatformMode.GALAXY_FC, fun productInfo localMac platformMappingStr =>
      some (makePlatform SaiPlatformClass.SaiBcmGalaxyFCPlatform productInfo localMac platformMappingStr)),
   (PlatformMode.GALAXY_LC, fun productInfo localMac platformMappingStr =>
      some (makePlatform SaiPlatformClass.SaiBcmGalaxyLCPlatform productInfo localMac platformMappingStr)),
   (PlatformMode.WEDGE400, fun productInfo localMac platformMappingStr =>
      some (makePlatform SaiPlatformClass.SaiBcmWedge400Platform productInfo localMac platformMappingStr)),
   (PlatformMode.DARWIN, fun productInfo localMac platformMappingStr =>
      some (makePlatform SaiPlatformClass.SaiBcmDarwinPlatform productInfo localMac platformMappingStr)),
   (PlatformMode.MINIPACK, fun productInfo localMac platformMappingStr =>
      some (makePlatform SaiPlatformClass.SaiBcmMinipackPlatform productInfo localMac platformMappingStr)),
   (PlatformMode.YAMP, fun productInfo localMac platformMappingStr =>
      some (makePlatform SaiPlatformClass.SaiBcmYampPlatform productInfo localMac platformMappingStr)),
   (PlatformMode.WEDGE400C, fun productInfo localMac platformMappingStr =>
      if isLEB then getLEBPlatform productInfo localMac platformMappingStr
      else some (makePlatform SaiPlatformClass.SaiWedge400CPlatform productInfo localMac platformMappingStr)),
   (PlatformMode.WEDGE400C_VOQ, fun productInfo localMac platformMappingStr =>
      some (makePlatform SaiPlatformClass.SaiWedge400CVoqPlatform productInfo localMac platformMappingStr)),
   (PlatformMode.WEDGE400C_FABRIC, fun productInfo localMac platformMappingStr =>
      some (makePlatform SaiPlatformClass.SaiWedge400CFabricPlatform productInfo localMac platformMappingStr)),
   (PlatformMode.CLOUDRIPPER, fun productInfo localMac platformMappingStr =>
      some (makePlatform SaiPlatformClass.SaiCloudRipperPlatform productInfo localMac platformMappingStr)),
   (PlatformMode.CLOUDRIPPER_VOQ, fun productInfo localMac platformMappingStr =>
      some (makePlatform SaiPlatformClass.SaiCloudRipperVoqPlatform productInfo localMac platformMappingStr)),
   (PlatformMode.CLOUDRIPPER_FABRIC, fun productInfo localMac platformMappingStr =>
      some (makePlatform SaiPlatformClass.SaiCloudRipperFabricPlatform productInfo localMac platformMappingStr)),
   (PlatformMode.FUJI, fun productInfo localMac platformMappingStr =>
      some (makePlatform SaiPlatformClass.SaiBcmFujiPlatform productInfo localMac platformMappingStr)),
   (PlatformMode.LASSEN, fun productInfo localMac platformMappingStr =>
      some (makePlatform SaiPlatformClass.SaiLassenPlatform productInfo localMac platformMappingStr)),
   (PlatformMode.SANDIA, fun productInfo localMac platformMappingStr =>
      some (makePlatform SaiPlatformClass.SaiSandiaPlatform productInfo localMac platformMappingStr)),
   (PlatformMode.ELBERT, fun productInfo localMac platformMappingStr =>
      some (makePlatform SaiPlatformClass.SaiBcmElbertPlatform productInfo localMac platformMappingStr)),
   (PlatformMode.MERU400BIU, fun productInfo localMac platformMappingStr =>
      some (makePlatform SaiPlatformClass.SaiMeru400biuPlatform productInfo localMac platformMappingStr)),
   (PlatformMode.MERU400BIA, fun productInfo localMac platformMappingStr =>
      some (makePlatform SaiPlatformClass.SaiMeru400biaPlatform productInfo localMac platformMappingStr)),
   (PlatformMode.MERU400BFU, fun productInfo localMac platformMappingStr =>
      some (makePlatform SaiPlatformClass.SaiMeru400bfuPlatform productInfo localMac platformMappingStr)),
   (PlatformMode.MONTBLANC, fun productInfo localMac platformMappingStr =>
      some (makePlatform SaiPlatformClass.SaiBcmMontblancPlatform productInfo localMac platformMappingStr))]

/-- Lookup in a registry: the builder of the first entry whose key is `mode`. -/
def registryFind (mode : PlatformMode) :
    List (PlatformMode × PlatformBuilder) → Option PlatformBuilder
  | [] => none
  | (key, builder) :: rest => if key = mode then some builder else registryFind mode rest

/-- The registry-based selection: look the mode up and run the builder found;
null when the registry has no entry for the mode. -/
def registryChoose (registry : List (PlatformMode × PlatformBuilder))
    (productInfo : PlatformProductInfo) (localMac : Nat) (platformMappingStr : String) :
    Option SaiPlatform :=
  match registryFind productInfo.getMode registry with
  | none => none
  | some builder => builder productInfo localMac platformMappingStr

/-! ## The fan service: telemetry cache and control tick

The implementation (`FanService`, `SensorData`) is not among the sources; only
its integration test is. The definitions of this section follow the
specification (sections 3, 4.2, 4.3 and 6). Times are integers (epoch
seconds), so that `now - lastUpdated` is the difference of the two. -/

/-- Modelled from the spec: `SensorReading` of section 3, "{name, value,
lastUpdatedTimestamp}"; the class is declared in the fan service, outside the
sources. -/
structure SensorReading where
  name : String
  value : Int
  lastUpdatedTimestamp : Int
  deriving DecidableEq

/-- Modelled from the spec: `SensorData` of section 3, the "mapping from sensor
name to SensorReading" of the telemetry cache (class `SensorData` of the fan
service, outside the sources), kept as the list of its entries in the order in
which the sensors were first observed. -/
structure SensorData where
  entries : List SensorReading
  deriving DecidableEq

/-- Modelled from the spec: the cache "is created empty at service start"
(`SensorData` is outside the sources). -/
def SensorData.empty : SensorData := ⟨[]⟩

/-- Modelled from the spec: `get(name)` of section 4.2, "reading or not
found" (`SensorData` is outside the sources). -/
def SensorData.get (d : SensorData) (name : String) : Option SensorReading :=
  d.entries.find? (fun e => decide (e.name = name))

/-- Modelled from the spec: `exists(name)` of section 4.2, the
`checkIfEntryExists(name)` of section 6 and of the test (`SensorData` is
outside the sources). -/
def SensorData.checkIfEntryExists (d : SensorData) (name : String) : Bool :=
  d.entries.any (fun e => decide (e.name = name))

/-- Modelled from the spec: `lastUpdated(name)` of section 4.2, the
`getLastUpdated(name)` of section 6: "epoch seconds (0 if never observed)"
(`SensorData` is outside the sources). -/
def SensorData.getLastUpdated (d : SensorData) (name : String) : Int :=
  match d.get name with
  | none => 0
  | some r => r.lastUpdatedTimestamp

/-- Modelled from the spec: `size()` of section 4.2, the "count of distinct
sensors ever observed" (`SensorData` is outside the sources). -/
def SensorData.size (d : SensorData) : Nat :=
  d.entries.length

/-- Modelled from the spec: one reading of `merge(batch)`, section 4.2: "if the
sensor already exists, update value and timestamp; otherwise insert a new
entry" (`SensorData` is outside the sources). -/
def SensorData.mergeReading (d : SensorData) (r : SensorReading) : SensorData :=
  if d.checkIfEntryExists r.name then
    ⟨d.entries.map (fun e =>
      if e.name = r.name then
        { e with value := r.value, lastUpdatedTimestamp := r.lastUpdatedTimestamp }
      else e)⟩
  else
    ⟨d.entries ++ [r]⟩

/-- Modelled from the spec: `merge(batch)` of section 4.2, "for each reading"
of the batch in turn (`SensorData` is outside the sources). -/
def SensorData.merge (d : SensorData) (batch : List SensorReading) : SensorData :=
  batch.foldl SensorData.mergeReading d

/-- Modelled from the spec: `isStale(name, now, thresholdSeconds)` of section
4.2, "true if the sensor is absent, or now - lastUpdated(name) >
thresholdSeconds" (`SensorData` is outside the sources). -/
def SensorData.isStale (d : SensorData) (name : String) (now thresholdSeconds : Int) : Bool :=
  !d.checkIfEntryExists name || decide (now - d.getLastUpdated name > thresholdSeconds)

/-- Modelled from the spec: `Zone` of section 3, a "named grouping of one or
more sensors and one or more fans" with its clamp bounds (the fan service's
configuration types are outside the sources). -/
structure Zone where
  name : String
  sensors : List String
  fans : List String
  minOutput : Int
  maxOutput : Int
  deriving DecidableEq

/-- Modelled from the spec: `ControlState` of section 3, the "per-zone algorithm
memory (e.g., accumulated error for integral control)" (outside the sources). -/
structure ControlState where
  accumulatedError : Int
  previousError : Int
  deriving DecidableEq

/-- Modelled from the spec: the memory of a zone at its first tick
(`ControlState` is "created at first tick for a zone"). -/
def ControlState.fresh : ControlState := ⟨0, 0⟩

/-- Modelled from the spec: the Control Algorithm of section 4.4, a pluggable
strategy, deterministic given the readings and the prior `ControlState`; here
for one zone, giving the output and the new memory (outside the sources). -/
abbrev ControlAlgorithm := Zone → List SensorReading → ControlState → Int × ControlState

/-- Modelled from the spec: what a control tick is configured with: the zones,
the fetch frequency in seconds (the staleness threshold of section 4.3) and the
control algorithm (the fan service's configuration is outside the sources). -/
structure FanServiceConfig where
  zones : List Zone
  sensorFetchFrequency : Int
  compute : ControlAlgorithm

/-- Modelled from the spec: the state of the fan service that section 6
exposes: the cache, the last fetch time, the per-zone memory and the outputs
last written to the actuators, by zone name (`FanService` is outside the
sources). -/
structure FanService where
  sensorData : SensorData
  lastSensorFetchTimeSec : Int
  controlStates : List (String × ControlState)
  applied : List (String × Int)
  deriving DecidableEq

/-- Modelled from the spec: the service at start, its cache empty (`FanService`
is outside the sources). -/
def FanService.start : FanService := ⟨SensorData.empty, 0, [], []⟩

/-- Modelled from the spec: `getSensorFetchFrequency()` of section 6, the
"configured interval seconds" (`FanService` is outside the sources). -/
def FanServiceConfig.getSensorFetchFrequency (cfg : FanServiceConfig) : Int :=
  cfg.sensorFetchFrequency

/-- Modelled from the spec: "a zone's fan output is always clamped to
[minOutput, maxOutput]" (section 3; outside the sources). -/
def Zone.clamp (z : Zone) (output : Int) : Int :=
  max z.minOutput (min z.maxOutput output)

/-- Modelled from the spec: step (2) of the tick, for one zone: "all member
sensors are stale or missing" (section 4.3; outside the sources). -/
def Zone.allStale (z : Zone) (d : SensorData) (now thresholdSeconds : Int) : Bool :=
  z.sensors.all (fun n => d.isStale n now thresholdSeconds)

/-- Modelled from the spec: "the non-stale readings" of a zone that step (3) of
the tick hands to the Control Algorithm (section 4.3; outside the sources). -/
def Zone.freshReadings (z : Zone) (d : SensorData) (now thresholdSeconds : Int) :
    List SensorReading :=
  z.sensors.filterMap (fun n => if d.isStale n now thresholdSeconds then none else d.get n)

/-- Modelled from the spec: the memory kept for a zone, fresh when the zone has
not been through a tick yet (section 3; outside the sources). -/
def controlStateOf (states : List (String × ControlState)) (zoneName : String) : ControlState :=
  match states.lookup zoneName with
  | none => ControlState.fresh
  | some cs => cs

/-- Modelled from the spec: steps (2) to (4) of the tick for one zone: evaluate
staleness, invoke the Control Algorithm with the non-stale readings and clamp
its output, and where all member sensors are stale or missing "override the
computed output with the zone's configured maximum" (section 4.3; outside the
sources). Gives the output to apply and the zone's new memory. -/
def zoneOutput (cfg : FanServiceConfig) (d : SensorData) (now : Int) (z : Zone)
    (cs : ControlState) : Int × ControlState :=
  let computed := cfg.compute z (z.freshReadings d now cfg.sensorFetchFrequency) cs
  let clamped := z.clamp computed.1
  (if z.allStale d now cfg.sensorFetchFrequency then z.maxOutput else clamped, computed.2)

/-- Modelled from the spec: a bus delivery, which the Bus Client pushes into
the cache between ticks (sections 4.1 and 5; `FanService` is outside the
sources). -/
def FanService.deliver (fs : FanService) (batch : List SensorReading) : FanService :=
  { fs with sensorData := fs.sensorData.merge batch }

/-- Modelled from the spec: `controlFan()`, one tick of section 4.3
(`FanService::controlFan` is outside the sources). `delivered` is what the bus
has delivered and the tick pulls into the cache in step (1), empty when the bus
delivers nothing new (the cache is "populated/merged on every bus delivery and
every control tick"); `now` is the time at which staleness is evaluated;
`completedAt` is the tick's completion time, recorded in step (6)
"unconditionally, whether or not new data arrived". -/
def FanService.controlFan (cfg : FanServiceConfig) (fs : FanService)
    (delivered : List SensorReading) (now completedAt : Int) : FanService :=
  let cache := fs.sensorData.merge delivered
  let results := cfg.zones.map (fun z =>
    (z.name, zoneOutput cfg cache now z (controlStateOf fs.controlStates z.name)))
  { sensorData := cache
    lastSensorFetchTimeSec := completedAt
    controlStates := results.map (fun r => (r.1, r.2.2))
    applied := results.map (fun r => (r.1, r.2.1)) }

/-- What one tick is given from outside: the bus delivery it pulls, the time of
its staleness evaluation and its completion time. -/
structure TickInput where
  delivered : List SensorReading
  now : Int
  completedAt : Int
  deriving DecidableEq

/-- Modelled from the spec: a run of ticks, one per input in turn; the list of
the states after each tick (ticks are serialized, section 4.3). -/
def FanService.controlFanRun (cfg : FanServiceConfig) :
    FanService → List TickInput → List FanService
  | _, [] => []
  | fs, t :: rest =>
      let next := fs.controlFan cfg t.delivered t.now t.completedAt
      next :: FanService.controlFanRun cfg next rest

/-- Modelled from the spec: how one tick of a run sits in time (the scheduling
of `FanService::controlFan` is outside the sources). Ticks are "triggered
externally on a fixed cadence or synchronously on demand" and are "serialized -
no two ticks execute concurrently" (section 4.3): a tick starts
`secondsSincePrevious` seconds after the previous tick completed and completes
`secondsTaken` seconds after it started, both numbers of seconds of the
service's clock; `delivered` is what the bus has delivered for the tick to
pull, empty when there is no new telemetry. -/
structure TickSchedule where
  delivered : List SensorReading
  secondsSincePrevious : Nat
  secondsTaken : Nat
  deriving DecidableEq

/-- Modelled from the spec: the times of the ticks of a run as the clock shows
them (epoch seconds), `clockSec` being the clock when the previous tick
completed, or when the run begins: a tick evaluates staleness when it starts
and its completion time is the clock when it ends (section 4.3; outside the
sources). -/
def tickInputs : Int → List TickSchedule → List TickInput
  | _, [] => []
  | clockSec, t :: rest =>
      let now := clockSec + (t.secondsSincePrevious : Int)
      let completedAt := now + (t.secondsTaken : Int)
      ⟨t.delivered, now, completedAt⟩ :: tickInputs completedAt rest

/-- Modelled from the spec: a run of `controlFan()` ticks on the service's
clock, which reads `clockSec` when the run begins; the list of the states after
each tick. Each tick is `controlFan` at the clock's readings for its start and
its completion (section 4.3 and section 6, `lastSensorFetchTimeSec()` being the
"epoch seconds of most recent completed tick"; outside the sources). -/
def FanService.controlFanTicks (cfg : FanServiceConfig) :
    Int → FanService → List TickSchedule → List FanService
  | _, _, [] => []
  | clockSec, fs, t :: rest =>
      let now := clockSec + (t.secondsSincePrevious : Int)
      let completedAt := now + (t.secondsTaken : Int)
      let next := fs.controlFan cfg t.delivered now completedAt
      next :: FanService.controlFanTicks cfg completedAt next rest

/-- The same schedule with no telemetry for any tick to pull. -/
def TickSchedule.withoutDelivery (t : TickSchedule) : TickSchedule :=
  { t with delivered := [] }

/-! ## CmdShowFabric.h -/

/-- Modelled from the spec: the thrift struct `FabricEndpoint`, declared in
`ctrl_types.h` (generated, not among the sources); these are the fields that
`createModel` reads, an optional field being an `Option`. -/
structure FabricEndpoint where
  isAttached : Bool
  switchId : Int
  portId : Int
  portName : Option String
  switchName : Option String
  expectedSwitchId : Option Int
  expectedPortId : Option Int
  expectedPortName : Option String
  expectedSwitchName : Option String
  deriving DecidableEq

/-- Modelled from the spec: the thrift struct `cli::FabricEntry`, declared in
`model_types.h` (generated, not among the sources); these are the fields that
`createModel` writes and `printOutput` reads. -/
structure FabricEntry where
  localPort : String
  remoteSwitchName : String
  remoteSwitchId : Int
  remotePortName : String
  remotePortId : Int
  expectedRemoteSwitchName : String
  expectedRemoteSwitchId : Int
  expectedRemotePortName : String
  expectedRemotePortId : Int
  deriving DecidableEq

/-- Modelled from the spec: the thrift struct `cli::ShowFabricModel`
(`RetType`), declared in `model_types.h` (generated, not among the sources):
the vector `fabricEntries`. -/
structure ShowFabricModel where
  fabricEntries : List FabricEntry
  deriving DecidableEq

/-- Source `CmdShowFabric::udpateNametoIdString` (sic): `idToString` is `"(-)"`
when `value == -1` and `folly::to<std::string>("(", value, ")")` otherwise, the
value in decimal; `name += idToString`. Returns the new content of `name`. -/
def udpateNametoIdString (name : String) (value : Int) : String :=
  let idToString := if value = -1 then "(-)" else "(" ++ toString value ++ ")"
  name ++ idToString

/-- The body of the loop of `createModel` from line 105 to line 123: the
`fabricDetails` that is pushed for the entry `(localPort, endpoint)` of the
map, `kUnavail` being the empty string. -/
def fabricDetailsOf (localPort : String) (endpoint : FabricEndpoint) : FabricEntry :=
  let kUnavail : String := ""
  { localPort := localPort
    remoteSwitchId := endpoint.switchId
    remotePortId := endpoint.portId
    remotePortName :=
      match endpoint.portName with
      | some v => v
      | none => kUnavail
    remoteSwitchName :=
      match endpoint.switchName with
      | some v => v
      | none => kUnavail
    expectedRemoteSwitchId :=
      match endpoint.expectedSwitchId with
      | some v => v
      | none => -1
    expectedRemotePortId :=
      match endpoint.expectedPortId with
      | some v => v
      | none => -1
    expectedRemotePortName :=
      match endpoint.expectedPortName with
      | some v => v
      | none => kUnavail
    expectedRemoteSwitchName :=
      match endpoint.expectedSwitchName with
      | some v => v
      | none => kUnavail }

/-- One round of the loop of `createModel`: `continue` when the endpoint is not
attached, `push_back(fabricDetails)` otherwise. -/
def createModelStep (entries : List FabricEntry) (entry : String × FabricEndpoint) :
    List FabricEntry :=
  let endpoint := entry.2
  if !endpoint.isAttached then
    entries
  else
    entries ++ [fabricDetailsOf entry.1 endpoint]

/-- Where `std::sort` puts one more element: before the first element that it
compares less than, after every other. -/
def stdSortInsert (comp : FabricEntry → FabricEntry → Bool) (x : FabricEntry) :
    List FabricEntry → List FabricEntry
  | [] => [x]
  | y :: ys => if comp x y then x :: y :: ys else y :: stdSortInsert comp x ys

/-- The call `std::sort(begin, end, comp)` of the C++ standard library, which
is outside the sources. The standard fixes its result for a `comp` that is a
strict weak ordering: a rearrangement of the range in which no element
compares less than an element before it; the order of equivalent elements is
left open. It is modelled by insertion sort, one sort with that result. -/
def stdSort (comp : FabricEntry → FabricEntry → Bool) : List FabricEntry → List FabricEntry
  | [] => []
  | x :: xs => stdSortInsert comp x (stdSort comp xs)

/-- Source `CmdShowFabric::createModel`. The `std::map` is the list of its
entries in the order of iteration (a map holds a key once); the function
`utils::comparePortName`, defined in `CmdUtils.h` outside the sources, is a
parameter. The loop pushes the details of the attached endpoints, then the
vector is sorted with the lambda that compares the `localPort` of two entries. -/
def createModel (comparePortName : String → String → Bool)
    (fabricEntries : List (String × FabricEndpoint)) : ShowFabricModel :=
  let pushed := fabricEntries.foldl createModelStep []
  ⟨stdSort (fun a b => comparePortName a.localPort b.localPort) pushed⟩

/-- What the claim about `createModel` assumes of `utils::comparePortName`, and
what `std::sort` requires of its comparison: a strict weak order. -/
structure StrictWeakOrder (comp : String → String → Bool) : Prop where
  irrefl : ∀ a, comp a a = false
  trans : ∀ a b c, comp a b = true → comp b c = true → comp a c = true
  incomp_trans : ∀ a b c, comp a b = false → comp b a = false →
    comp b c = false → comp c b = false → comp a c = false ∧ comp c a = false

/-! ## Theorems: HwWriteBehavior.cpp -/

theorem construct_snd (behavior : HwWriteBehavior) (s : HwState) :
    (HwWriteBehaviorRAII.construct behavior s).2 = ⟨behavior⟩ := rfl

theorem construct_fst (behavior : HwWriteBehavior) (s : HwState) :
    (HwWriteBehaviorRAII.construct behavior s).1 = ⟨s.curBehavior⟩ := rfl

theorem destruct_eq (r : HwWriteBehaviorRAII) (s : HwState) :
    r.destruct s = ⟨r.prevBehavior_⟩ := rfl

theorem Scopes.run_state (code : Scopes) : ∀ s : HwState, (code.run s).1 = s := by
  induction code with
  | done => intro s; rfl
  | scope behavior body rest _ ihr =>
      intro s
      simp only [Scopes.run]
      rw [ihr]
      rfl

theorem Scopes.run_log (code : Scopes) :
    ∀ s : HwState, ∀ e ∈ (code.run s).2, e.after = e.before := by
  induction code with
  | done => intro s e he; simp [Scopes.run] at he
  | scope behavior body rest ihb ihr =>
      intro s e he
      simp only [Scopes.run, List.mem_append, List.mem_cons] at he
      rcases he with h | h | h
      · exact ihb _ e h
      · subst h; rfl
      · exact ihr _ e h

theorem Scopes.run_log_length (code : Scopes) :
    ∀ s : HwState, (code.run s).2.length = code.count := by
  induction code with
  | done => intro s; rfl
  | scope behavior body rest ihb ihr =>
      intro s
      simp only [Scopes.run, Scopes.count, List.length_append, List.length_cons, ihb, ihr]
      omega

theorem HwProc.run_append (xs ys : List HwOp) (p : HwProc) :
    HwProc.run (xs ++ ys) p = HwProc.run ys (HwProc.run xs p) := by
  simp [HwProc.run, List.foldl_append]

theorem HwProc.run_cons (o : HwOp) (ops : List HwOp) (p : HwProc) :
    HwProc.run (o :: ops) p = HwProc.run ops (p.step o) := rfl

theorem Scopes.run_toOps (code : Scopes) :
    ∀ (s : HwState) (live : List HwWriteBehaviorRAII),
      HwProc.run code.toOps ⟨s, live⟩ = ⟨(code.run s).1, live⟩ := by
  induction code with
  | done => intro s live; rfl
  | scope behavior body rest ihb ihr =>
      intro s live
      simp only [Scopes.toOps, HwProc.run_cons, HwProc.run_append, HwProc.step, ihb]
      simp only [List.get?_cons_zero, List.eraseIdx_cons_zero, ihr, Scopes.run]

/-- C1: ending the scope of an override (running its destructor), whatever the
mode was before the override, whatever override value it was given and
whatever state the process is in by then, sets the mode that
`getHwWriteBehavior` returns to the mode it returned when the override was
constructed; constructing an override and ending it at once gives back the
state there was before. -/
theorem raii_destructor_restores_mode_at_construction
    (prior : HwState) (behavior : HwWriteBehavior) (later : HwState) :
    getHwWriteBehavior ((HwWriteBehaviorRAII.construct behavior prior).1.destruct later)
        = getHwWriteBehavior prior
      ∧ (HwWriteBehaviorRAII.construct behavior prior).1.destruct
          (HwWriteBehaviorRAII.construct behavior prior).2 = prior :=
  ⟨rfl, rfl⟩

/-- C2: right after `HwWriteBehaviorRAII(behavior)` is constructed
`getHwWriteBehavior` returns `behavior`, whatever the mode was before, and it
still returns `behavior` after any run of client operations none of which
constructs or ends an override; in a fresh process, as long as no override has
been constructed, it returns `WRITE`. -/
theorem get_returns_override_until_next_override
    (p : HwProc) (behavior : HwWriteBehavior) (ops : List HwOp)
    (hops : ∀ o ∈ ops, (∀ b, o ≠ HwOp.construct b) ∧ (∀ i, o ≠ HwOp.destruct i)) :
    getHwWriteBehavior (HwWriteBehaviorRAII.construct behavior p.hw).2 = behavior
      ∧ getHwWriteBehavior (HwProc.run ops (p.step (HwOp.construct behavior))).hw = behavior
      ∧ getHwWriteBehavior (HwProc.run ops HwProc.initial).hw = HwWriteBehavior.WRITE := by
  have key : ∀ q : HwProc, HwProc.run ops q = q := by
    induction ops with
    | nil => intro q; rfl
    | cons o rest ih =>
        intro q
        have ho := hops o (List.mem_cons_self _ _)
        have hrest : ∀ o ∈ rest, (∀ b, o ≠ HwOp.construct b) ∧ (∀ i, o ≠ HwOp.destruct i) :=
          fun o' ho' => hops o' (List.mem_cons_of_mem _ ho')
        cases o with
        | get => rw [HwProc.run_cons]; exact ih hrest _
        | construct b => exact absurd rfl (ho.1 b)
        | destruct i => exact absurd rfl (ho.2 i)
  refine ⟨rfl, ?_, ?_⟩
  · rw [key]
    rfl
  · rw [key]
    rfl

/-- Witness for C2: three reads after an override with `SKIP` in a fresh process. -/
theorem get_returns_override_until_next_override_witness :
    getHwWriteBehavior
        (HwProc.run [HwOp.get, HwOp.get, HwOp.get]
          (HwProc.initial.step (HwOp.construct HwWriteBehavior.SKIP))).hw
      = HwWriteBehavior.SKIP :=
  (get_returns_override_until_next_override HwProc.initial HwWriteBehavior.SKIP
    [HwOp.get, HwOp.get, HwOp.get] (by simp)).2.1

/-- C3: for block-structured (properly nested) overrides of any depth and with
any override values, run from any state: after every scope ends the mode equals
the mode observed just before that scope began (one record per scope), the state
after all scopes have ended is the state before the first override, and the
flat sequence of constructions and destructions (each destruction ending the
most recent live override) leaves the same state and the same live overrides. -/
theorem nested_scopes_restore_prior_mode (code : Scopes) (s : HwState)
    (live : List HwWriteBehaviorRAII) :
    (∀ e ∈ (code.run s).2, e.after = e.before)
      ∧ (code.run s).2.length = code.count
      ∧ getHwWriteBehavior (code.run s).1 = getHwWriteBehavior s
      ∧ HwProc.run code.toOps ⟨s, live⟩ = ⟨s, live⟩ := by
  refine ⟨Scopes.run_log code s, Scopes.run_log_length code s, ?_, ?_⟩
  · rw [Scopes.run_state]
  · rw [Scopes.run_toOps, Scopes.run_state]

/-! ## Theorems: SaiPlatformInit.cpp and SaiBcmYampPlatform.cpp -/

theorem registryFind_of_mem (mode : PlatformMode) (builder : PlatformBuilder) :
    ∀ registry : List (PlatformMode × PlatformBuilder),
      (registry.map Prod.fst).Nodup → (mode, builder) ∈ registry →
      registryFind mode registry = some builder := by
  intro registry
  induction registry with
  | nil => intro _ h; simp at h
  | cons entry rest ih =>
      obtain ⟨key, b⟩ := entry
      intro hnd hmem
      simp only [List.map_cons, List.nodup_cons] at hnd
      simp only [List.mem_cons, Prod.mk.injEq] at hmem
      rcases hmem with ⟨hk, hb⟩ | hmem
      · simp [registryFind, hk, hb]
      · have hne : key ≠ mode := by
          intro hkm
          apply hnd.1
          rw [hkm]
          exact List.mem_map_of_mem Prod.fst hmem
        simp only [registryFind, hne, if_false]
        exact ih hnd.2 hmem

theorem registryFind_mem (mode : PlatformMode) (builder : PlatformBuilder) :
    ∀ registry : List (PlatformMode × PlatformBuilder),
      registryFind mode registry = some builder → (mode, builder) ∈ registry := by
  intro registry
  induction registry with
  | nil => intro h; simp [registryFind] at h
  | cons entry rest ih =>
      obtain ⟨key, b⟩ := entry
      intro h
      by_cases hk : key = mode
      · simp only [registryFind, hk, if_true, Option.some.injEq] at h
        simp [hk, h]
      · simp only [registryFind, hk, if_false] at h
        exact List.mem_cons_of_mem _ (ih h)

theorem registryFind_none (mode : PlatformMode) :
    ∀ registry : List (PlatformMode × PlatformBuilder),
      mode ∉ registry.map Prod.fst → registryFind mode registry = none := by
  intro registry
  induction registry with
  | nil => intro _; rfl
  | cons entry rest ih =>
      obtain ⟨key, b⟩ := entry
      intro h
      simp only [List.map_cons, List.mem_cons, not_or] at h
      have hne : key ≠ mode := fun hk => h.1 hk.symm
      simp only [registryFind, hne, if_false]
      exact ih h.2

theorem registryFind_perm (mode : PlatformMode)
    (registry reordered : List (PlatformMode × PlatformBuilder))
    (hnd : (registry.map Prod.fst).Nodup) (hperm : reordered.Perm registry) :
    registryFind mode reordered = registryFind mode registry := by
  have hnd2 : (reordered.map Prod.fst).Nodup :=
    ((hperm.map Prod.fst).nodup_iff).2 hnd
  cases h : registryFind mode registry with
  | none =>
      apply registryFind_none
      intro hmem
      obtain ⟨⟨k, b⟩, hkb, hk⟩ := List.mem_map.1 hmem
      simp only at hk
      subst hk
      have := registryFind_of_mem k b registry hnd (hperm.mem_iff.1 hkb)
      rw [h] at this
      cases this
  | some b =>
      exact registryFind_of_mem mode b reordered hnd2
        (hperm.mem_iff.2 (registryFind_mem mode b registry h))

theorem platformRegistry_keys (isLEB : Bool) (getLEBPlatform : PlatformBuilder) :
    (platformRegistry isLEB getLEBPlatform).map Prod.fst = chainModes := rfl

theorem chainModes_nodup : chainModes.Nodup := by
  decide

theorem chooseSaiPlatform_eq_registry (isLEB : Bool) (getLEBPlatform : PlatformBuilder)
    (productInfo : PlatformProductInfo) (localMac : Nat) (platformMappingStr : String) :
    chooseSaiPlatform isLEB getLEBPlatform productInfo localMac platformMappingStr
      = registryChoose (platformRegistry isLEB getLEBPlatform)
          productInfo localMac platformMappingStr := by
  obtain ⟨mode⟩ := productInfo
  cases mode <;>
    simp [chooseSaiPlatform, registryChoose, platformRegistry, registryFind,
      PlatformProductInfo.getMode]

/-- C4, refuted as stated: for a mode that the chain does not name,
`chooseSaiPlatform` returns the null pointer (here with `isLEB()` false), and
`initSaiPlatform` then makes the call `platform->init` on that null handle. -/
theorem chooseSaiPlatform_returns_null_for_unnamed_mode :
    chooseSaiPlatform false (fun _ _ _ => none) ⟨PlatformMode.other 5⟩ 0 "" = none
      ∧ initSaiPlatform false (fun _ _ _ => none) (fun _ => none) id
          ⟨PlatformMode.other 5⟩ 0 "" = InitOutcome.nullDereference := by
  constructor <;> rfl

/-- C4, amended: `chooseSaiPlatform` returns a non-null platform exactly when
the mode is one of the 22 modes its chain names and, in the case of `WEDGE400C`
with `isLEB()` true, `getLEBPlatform` returns a non-null platform; for every
other mode it returns the null pointer. -/
theorem chooseSaiPlatform_nonnull_iff_mode_named (isLEB : Bool)
    (getLEBPlatform : PlatformBuilder) (productInfo : PlatformProductInfo)
    (localMac : Nat) (platformMappingStr : String) :
    ((chooseSaiPlatform isLEB getLEBPlatform productInfo localMac platformMappingStr).isSome
        = true
      ↔ productInfo.getMode ∈ chainModes
        ∧ (productInfo.getMode = PlatformMode.WEDGE400C → isLEB = true →
            (getLEBPlatform productInfo localMac platformMappingStr).isSome = true))
      ∧ (productInfo.getMode ∉ chainModes →
          chooseSaiPlatform isLEB getLEBPlatform productInfo localMac platformMappingStr
            = none) := by
  obtain ⟨mode⟩ := productInfo
  cases mode <;> cases isLEB <;>
    simp [chooseSaiPlatform, chainModes, PlatformProductInfo.getMode]

/-- C5, refuted as stated: for the mode `WEDGE400C` the class of the platform
chosen differs with what `isLEB()` returns (here `getLEBPlatform` builds a
platform of a class of its own), so no table keyed by the mode alone gives the
class of the platform chosen. -/
theorem chooseSaiPlatform_variant_not_by_mode_alone :
    (chooseSaiPlatform true
          (fun pi mac str => some (makePlatform (SaiPlatformClass.external "LEB") pi mac str))
          ⟨PlatformMode.WEDGE400C⟩ 0 "").map SaiPlatform.cls
        = some (SaiPlatformClass.external "LEB")
      ∧ (chooseSaiPlatform false
          (fun pi mac str => some (makePlatform (SaiPlatformClass.external "LEB") pi mac str))
          ⟨PlatformMode.WEDGE400C⟩ 0 "").map SaiPlatform.cls
        = some SaiPlatformClass.SaiWedge400CPlatform
      ∧ ¬ ∃ table : PlatformMode → Option SaiPlatformClass,
        ∀ (isLEB : Bool) (getLEBPlatform : PlatformBuilder)
          (productInfo : PlatformProductInfo) (localMac : Nat) (platformMappingStr : String),
          (chooseSaiPlatform isLEB getLEBPlatform productInfo localMac
              platformMappingStr).map SaiPlatform.cls
            = table productInfo.getMode := by
  refine ⟨rfl, rfl, ?_⟩
  rintro ⟨table, h⟩
  have h1 := h true (fun pi mac str => some (makePlatform (SaiPlatformClass.external "LEB")
    pi mac str)) ⟨PlatformMode.WEDGE400C⟩ 0 ""
  have h2 := h false (fun pi mac str => some (makePlatform (SaiPlatformClass.external "LEB")
    pi mac str)) ⟨PlatformMode.WEDGE400C⟩ 0 ""
  rw [← h2] at h1
  revert h1
  decide

/-- C5, amended: `chooseSaiPlatform` is a registry lookup keyed by the mode, in
which the entry of `WEDGE400C` also consults `isLEB()` and `getLEBPlatform`:
it equals the lookup in `platformRegistry`, whose keys are the modes of the
chain, each once, so the lookup gives the same result in every order of the
entries; the class chosen is the same for equal modes whenever the mode is not
`WEDGE400C` or `isLEB()` is false on both sides; and `YAMP` yields a
`SaiBcmYampPlatform`, whose `setupAsic` makes `getAsic` return a
`Tomahawk3Asic`. -/
theorem chooseSaiPlatform_is_registry_lookup (isLEB isLEB2 : Bool)
    (getLEBPlatform getLEBPlatform2 : PlatformBuilder)
    (productInfo productInfo2 : PlatformProductInfo) (localMac localMac2 : Nat)
    (platformMappingStr platformMappingStr2 : String)
    (reordered : List (PlatformMode × PlatformBuilder))
    (switchType : Int) (switchId : Option Int) (systemPortRange : Option (Int × Int)) :
    chooseSaiPlatform isLEB getLEBPlatform productInfo localMac platformMappingStr
        = registryChoose (platformRegistry isLEB getLEBPlatform)
            productInfo localMac platformMappingStr
      ∧ ((platformRegistry isLEB getLEBPlatform).map Prod.fst = chainModes
          ∧ chainModes.Nodup)
      ∧ (reordered.Perm (platformRegistry isLEB getLEBPlatform) →
          registryChoose reordered productInfo localMac platformMappingStr
            = chooseSaiPlatform isLEB getLEBPlatform productInfo localMac platformMappingStr)
      ∧ (productInfo.getMode = productInfo2.getMode →
          (productInfo.getMode ≠ PlatformMode.WEDGE400C
            ∨ (isLEB = false ∧ isLEB2 = false)) →
          (chooseSaiPlatform isLEB getLEBPlatform productInfo localMac
              platformMappingStr).map SaiPlatform.cls
            = (chooseSaiPlatform isLEB2 getLEBPlatform2 productInfo2 localMac2
                platformMappingStr2).map SaiPlatform.cls)
      ∧ (productInfo.getMode = PlatformMode.YAMP →
          chooseSaiPlatform isLEB getLEBPlatform productInfo localMac platformMappingStr
              = some (makePlatform SaiPlatformClass.SaiBcmYampPlatform productInfo
                  localMac platformMappingStr)
            ∧ SaiBcmYampPlatform.getAsic
                (SaiBcmYampPlatform.setupAsic
                  (makePlatform SaiPlatformClass.SaiBcmYampPlatform productInfo
                    localMac platformMappingStr)
                  switchType switchId systemPortRange)
              = some ⟨HwAsicClass.Tomahawk3Asic, switchType, switchId, systemPortRange⟩) := by
  refine ⟨chooseSaiPlatform_eq_registry _ _ _ _ _,
    ⟨platformRegistry_keys _ _, chainModes_nodup⟩, ?_, ?_, ?_⟩
  · intro hperm
    rw [chooseSaiPlatform_eq_registry]
    unfold registryChoose
    rw [registryFind_perm _ _ _
      (by rw [platformRegistry_keys]; exact chainModes_nodup) hperm]
  · obtain ⟨mode⟩ := productInfo
    obtain ⟨mode2⟩ := productInfo2
    intro hmode hside
    simp only [PlatformProductInfo.getMode] at hmode hside
    subst hmode
    rcases hside with hne | ⟨h1, h2⟩
    · cases mode <;>
        first
        | exact absurd rfl hne
        | simp [chooseSaiPlatform, PlatformProductInfo.getMode, makePlatform]
    · subst h1; subst h2
      cases mode <;>
        simp [chooseSaiPlatform, PlatformProductInfo.getMode, makePlatform]
  · obtain ⟨mode⟩ := productInfo
    intro hmode
    simp only [PlatformProductInfo.getMode] at hmode
    subst hmode
    exact ⟨rfl, rfl⟩

/-- Witness for C5: the registry with its entries in the opposite order, at the
mode `YAMP`, still selects a `SaiBcmYampPlatform`. -/
theorem chooseSaiPlatform_is_registry_lookup_witness :
    registryChoose (platformRegistry false (fun _ _ _ => none)).reverse
        ⟨PlatformMode.YAMP⟩ 7 "mapping"
      = some (makePlatform SaiPlatformClass.SaiBcmYampPlatform ⟨PlatformMode.YAMP⟩ 7 "mapping") :=
  ((chooseSaiPlatform_is_registry_lookup false false (fun _ _ _ => none) (fun _ _ _ => none)
      ⟨PlatformMode.YAMP⟩ ⟨PlatformMode.YAMP⟩ 7 7 "mapping" "mapping"
      (platformRegistry false (fun _ _ _ => none)).reverse 0 none none).2.2.1
    (List.reverse_perm _)).trans rfl

/-! ## Theorems: the fan service -/

theorem SensorData.checkIfEntryExists_mergeReading (d : SensorData) (r : SensorReading)
    (name : String) :
    (d.mergeReading r).checkIfEntryExists name
      = (d.checkIfEntryExists name || decide (r.name = name)) := by
  unfold SensorData.mergeReading
  by_cases h : d.checkIfEntryExists r.name = true
  · rw [if_pos h]
    have hnames : ∀ e : SensorReading,
        (if e.name = r.name then
            ({ e with value := r.value, lastUpdatedTimestamp := r.lastUpdatedTimestamp } :
              SensorReading)
          else e).name = e.name := by
      intro e
      split <;> rfl
    simp only [SensorData.checkIfEntryExists, List.any_map, Function.comp_def, hnames]
    by_cases hn : r.name = name
    · subst hn
      simp only [SensorData.checkIfEntryExists] at h
      simp [h]
    · simp [hn]
  · rw [if_neg h]
    simp [SensorData.checkIfEntryExists, List.any_append]

theorem SensorData.size_mergeReading (d : SensorData) (r : SensorReading) :
    d.size ≤ (d.mergeReading r).size := by
  unfold SensorData.mergeReading
  split <;> simp [SensorData.size]

theorem SensorData.merge_nil (d : SensorData) : d.merge [] = d := rfl

theorem SensorData.merge_cons (d : SensorData) (r : SensorReading)
    (batch : List SensorReading) :
    d.merge (r :: batch) = (d.mergeReading r).merge batch := rfl

theorem SensorData.checkIfEntryExists_merge (batch : List SensorReading) (name : String) :
    ∀ d : SensorData, d.checkIfEntryExists name = true →
      (d.merge batch).checkIfEntryExists name = true := by
  induction batch with
  | nil => intro d h; exact h
  | cons r rest ih =>
      intro d h
      rw [SensorData.merge_cons]
      apply ih
      rw [SensorData.checkIfEntryExists_mergeReading, h]
      rfl

theorem SensorData.size_merge (batch : List SensorReading) :
    ∀ d : SensorData, d.size ≤ (d.merge batch).size := by
  induction batch with
  | nil => intro d; exact Nat.le_refl _
  | cons r rest ih =>
      intro d
      rw [SensorData.merge_cons]
      exact Nat.le_trans (SensorData.size_mergeReading d r) (ih _)

theorem SensorData.checkIfEntryExists_of_get (d : SensorData) (name : String)
    (r : SensorReading) (h : d.get name = some r) : d.checkIfEntryExists name = true := by
  unfold SensorData.get at h
  unfold SensorData.checkIfEntryExists
  have hp : decide (r.name = name) = true :=
    @List.find?_some _ (fun e : SensorReading => decide (e.name = name)) r d.entries h
  rw [List.any_eq_true]
  exact ⟨r, List.mem_of_find?_eq_some h, hp⟩

theorem FanService.controlFan_sensorData (cfg : FanServiceConfig) (fs : FanService)
    (delivered : List SensorReading) (now completedAt : Int) :
    (fs.controlFan cfg delivered now completedAt).sensorData = fs.sensorData.merge delivered :=
  rfl

theorem FanService.controlFan_lastFetch (cfg : FanServiceConfig) (fs : FanService)
    (delivered : List SensorReading) (now completedAt : Int) :
    (fs.controlFan cfg delivered now completedAt).lastSensorFetchTimeSec = completedAt :=
  rfl

theorem FanService.controlFanRun_lastFetch (cfg : FanServiceConfig) :
    ∀ (inputs : List TickInput) (fs : FanService),
      (FanService.controlFanRun cfg fs inputs).map FanService.lastSensorFetchTimeSec
        = inputs.map TickInput.completedAt := by
  intro inputs
  induction inputs with
  | nil => intro fs; rfl
  | cons t rest ih =>
      intro fs
      simp only [FanService.controlFanRun, List.map_cons, ih]
      rfl

/-- C6: for every cache state, a `controlFan` tick that pulls no bus delivery
leaves `getLastUpdated(name)` unchanged for every sensor name, every sensor
that existed before the tick exists after it, and the cache as a whole is the
cache before the tick. -/
theorem controlFan_without_delivery_keeps_timestamps (cfg : FanServiceConfig)
    (fs : FanService) (now completedAt : Int) (name : String) :
    (fs.controlFan cfg [] now completedAt).sensorData.getLastUpdated name
        = fs.sensorData.getLastUpdated name
      ∧ (fs.sensorData.checkIfEntryExists name = true →
          (fs.controlFan cfg [] now completedAt).sensorData.checkIfEntryExists name = true)
      ∧ (fs.controlFan cfg [] now completedAt).sensorData = fs.sensorData :=
  ⟨rfl, fun h => h, rfl⟩

theorem FanService.controlFanRun_lastFetch_chain (cfg : FanServiceConfig) (fs : FanService)
    (inputs : List TickInput)
    (hclock : (inputs.map TickInput.completedAt).Chain' (fun a b => a ≤ b)) :
    ((FanService.controlFanRun cfg fs inputs).map FanService.lastSensorFetchTimeSec).Chain'
        (fun a b => a ≤ b) := by
  rw [FanService.controlFanRun_lastFetch]
  exact hclock

theorem FanService.controlFanTicks_eq_run (cfg : FanServiceConfig) :
    ∀ (ticks : List TickSchedule) (clockSec : Int) (fs : FanService),
      FanService.controlFanTicks cfg clockSec fs ticks
        = FanService.controlFanRun cfg fs (tickInputs clockSec ticks) := by
  intro ticks
  induction ticks with
  | nil => intro clockSec fs; rfl
  | cons t rest ih =>
      intro clockSec fs
      simp only [FanService.controlFanTicks, tickInputs, FanService.controlFanRun, ih]

theorem tickInputs_head_ge :
    ∀ (ticks : List TickSchedule) (clockSec : Int),
      ∀ c ∈ ((tickInputs clockSec ticks).map TickInput.completedAt).head?, clockSec ≤ c := by
  intro ticks clockSec c hc
  cases ticks with
  | nil => simp [tickInputs] at hc
  | cons t rest =>
      simp only [tickInputs, List.map_cons, List.head?_cons, Option.mem_def,
        Option.some.injEq] at hc
      omega

theorem tickInputs_completedAt_chain :
    ∀ (ticks : List TickSchedule) (clockSec : Int),
      ((tickInputs clockSec ticks).map TickInput.completedAt).Chain' (fun a b => a ≤ b) := by
  intro ticks
  induction ticks with
  | nil => intro clockSec; simp [tickInputs]
  | cons t rest ih =>
      intro clockSec
      simp only [tickInputs, List.map_cons]
      rw [List.chain'_cons']
      exact ⟨tickInputs_head_ge rest _, ih _⟩

theorem tickInputs_withoutDelivery :
    ∀ (ticks : List TickSchedule) (clockSec : Int),
      (tickInputs clockSec (ticks.map TickSchedule.withoutDelivery)).map TickInput.completedAt
        = (tickInputs clockSec ticks).map TickInput.completedAt := by
  intro ticks
  induction ticks with
  | nil => intro clockSec; rfl
  | cons t rest ih =>
      intro clockSec
      simp only [List.map_cons, tickInputs, TickSchedule.withoutDelivery, ih]

/-- C7: for every sequence of `controlFan` ticks, from any state of the service
and any reading of the clock, `lastSensorFetchTimeSec` does not decrease from
one tick to the next (nor from any tick to any later one); after each tick it
is the clock's reading at that tick's completion, those values are the same
when no tick of the sequence receives any telemetry, and a single tick sets it
to its completion time whatever it pulled from the bus. -/
theorem lastSensorFetchTimeSec_nondecreasing_across_ticks (cfg : FanServiceConfig)
    (clockSec : Int) (fs : FanService) (ticks : List TickSchedule) :
    ((FanService.controlFanTicks cfg clockSec fs ticks).map
        FanService.lastSensorFetchTimeSec).Chain' (fun a b => a ≤ b)
      ∧ ((FanService.controlFanTicks cfg clockSec fs ticks).map
          FanService.lastSensorFetchTimeSec).Pairwise (fun a b => a ≤ b)
      ∧ (FanService.controlFanTicks cfg clockSec fs ticks).map FanService.lastSensorFetchTimeSec
          = (tickInputs clockSec ticks).map TickInput.completedAt
      ∧ (FanService.controlFanTicks cfg clockSec fs
            (ticks.map TickSchedule.withoutDelivery)).map FanService.lastSensorFetchTimeSec
          = (FanService.controlFanTicks cfg clockSec fs ticks).map
              FanService.lastSensorFetchTimeSec
      ∧ ∀ (delivered : List SensorReading) (now completedAt : Int),
          (fs.controlFan cfg delivered now completedAt).lastSensorFetchTimeSec = completedAt := by
  have hchain :
      ((FanService.controlFanTicks cfg clockSec fs ticks).map
        FanService.lastSensorFetchTimeSec).Chain' (fun a b => a ≤ b) := by
    rw [FanService.controlFanTicks_eq_run]
    exact FanService.controlFanRun_lastFetch_chain cfg fs _
      (tickInputs_completedAt_chain ticks clockSec)
  refine ⟨hchain, List.chain'_iff_pairwise.1 hchain, ?_, ?_, fun _ _ _ => rfl⟩
  · rw [FanService.controlFanTicks_eq_run, FanService.controlFanRun_lastFetch]
  · rw [FanService.controlFanTicks_eq_run, FanService.controlFanTicks_eq_run,
      FanService.controlFanRun_lastFetch, FanService.controlFanRun_lastFetch,
      tickInputs_withoutDelivery]

/-- Witness for C7: from the service at start with the clock at 0, a tick with
telemetry that starts after 10 seconds and one without telemetry 15 seconds
later, the second within one second: the fetch time is 10, then 25. -/
theorem lastSensorFetchTimeSec_nondecreasing_across_ticks_witness :
    (FanService.controlFanTicks ⟨[], 10, fun _ _ cs => (0, cs)⟩ 0 FanService.start
        [⟨[⟨"t1", 40, 9⟩], 10, 0⟩, ⟨[], 15, 0⟩]).map FanService.lastSensorFetchTimeSec
      = [10, 25] :=
  (lastSensorFetchTimeSec_nondecreasing_across_ticks ⟨[], 10, fun _ _ cs => (0, cs)⟩ 0
    FanService.start [⟨[⟨"t1", 40, 9⟩], 10, 0⟩, ⟨[], 15, 0⟩]).2.2.1

/-- C8: in every tick, for every configured zone (by its position in the
configuration) all of whose member sensors are stale or absent in the cache the
tick reads, the output applied to the zone is the zone's configured maximum,
whatever control algorithm is configured. -/
theorem controlFan_failsafe_applies_maxOutput (cfg : FanServiceConfig) (fs : FanService)
    (delivered : List SensorReading) (now completedAt : Int) (i : Nat) (z : Zone)
    (hzone : cfg.zones[i]? = some z)
    (hstale : ∀ n ∈ z.sensors,
      (fs.controlFan cfg delivered now completedAt).sensorData.isStale n now
        cfg.getSensorFetchFrequency = true) :
    (fs.controlFan cfg delivered now completedAt).applied[i]? = some (z.name, z.maxOutput)
      ∧ (fs.controlFan cfg delivered now completedAt).applied.length = cfg.zones.length := by
  have hall : z.allStale (fs.sensorData.merge delivered) now cfg.sensorFetchFrequency = true := by
    unfold Zone.allStale
    rw [List.all_eq_true]
    intro n hn
    exact hstale n hn
  constructor
  · simp only [FanService.controlFan, List.getElem?_map, hzone, Option.map_some', zoneOutput,
      hall, if_true]
  · simp [FanService.controlFan]

/-- Witness for C8: the example of the specification, with T0 = 0: sensors t1
and t2 last updated at 10, fetch frequency 10, a tick at 40; the algorithm
asks for 35 and the zone gets its maximum, 100. -/
theorem controlFan_failsafe_applies_maxOutput_witness :
    (FanService.controlFan
        ⟨[⟨"zone1", ["t1", "t2"], ["fan1"], 20, 100⟩], 10, fun _ _ cs => (35, cs)⟩
        ⟨⟨[⟨"t1", 40, 10⟩, ⟨"t2", 45, 10⟩]⟩, 10, [], []⟩ [] 40 40).applied[0]?
      = some ("zone1", 100) :=
  (controlFan_failsafe_applies_maxOutput
    ⟨[⟨"zone1", ["t1", "t2"], ["fan1"], 20, 100⟩], 10, fun _ _ cs => (35, cs)⟩
    ⟨⟨[⟨"t1", 40, 10⟩, ⟨"t2", 45, 10⟩]⟩, 10, [], []⟩ [] 40 40 0
    ⟨"zone1", ["t1", "t2"], ["fan1"], 20, 100⟩ rfl (by decide)).1

/-- C9: `isStale(name, now, thresholdSeconds)` is true if and only if the
sensor is absent from the cache or `now - lastUpdated(name)` is strictly
greater than `thresholdSeconds`; for a sensor that is present with reading `r`
that is `now - r.lastUpdatedTimestamp > thresholdSeconds`; and a reading whose
age is exactly the threshold is not stale. -/
theorem isStale_iff_absent_or_older_than_threshold (d : SensorData) (name : String)
    (now thresholdSeconds : Int) :
    (d.isStale name now thresholdSeconds = true
        ↔ d.checkIfEntryExists name = false ∨ now - d.getLastUpdated name > thresholdSeconds)
      ∧ (∀ r, d.get name = some r →
          (d.isStale name now thresholdSeconds = true
            ↔ now - r.lastUpdatedTimestamp > thresholdSeconds))
      ∧ (d.checkIfEntryExists name = true → now - d.getLastUpdated name = thresholdSeconds →
          d.isStale name now thresholdSeconds = false) := by
  refine ⟨?_, ?_, ?_⟩
  · simp [SensorData.isStale]
  · intro r hr
    have hex := SensorData.checkIfEntryExists_of_get d name r hr
    simp [SensorData.isStale, SensorData.getLastUpdated, hr, hex]
  · intro hex hage
    simp [SensorData.isStale, hex, hage]

/-- Witness for C9: a reading last updated at 10 is not stale at 20 with
threshold 10 (age exactly the threshold) and is stale at 21. -/
theorem isStale_iff_absent_or_older_than_threshold_witness :
    SensorData.isStale ⟨[⟨"t1", 40, 10⟩]⟩ "t1" 20 10 = false
      ∧ SensorData.isStale ⟨[⟨"t1", 40, 10⟩]⟩ "t1" 21 10 = true :=
  ⟨(isStale_iff_absent_or_older_than_threshold ⟨[⟨"t1", 40, 10⟩]⟩ "t1" 20 10).2.2
      (by decide) (by decide),
    ((isStale_iff_absent_or_older_than_threshold ⟨[⟨"t1", 40, 10⟩]⟩ "t1" 21 10).2.1
      ⟨"t1", 40, 10⟩ (by decide)).2 (by decide)⟩

/-- C10: neither a merge nor a `controlFan` tick (whatever it pulls from the
bus) nor a bus delivery evicts a cache entry: every sensor for which
`checkIfEntryExists` held before holds it afterwards, and `size()` does not
decrease. -/
theorem cache_entries_never_evicted (cfg : FanServiceConfig) (fs : FanService)
    (batch : List SensorReading) (now completedAt : Int) (name : String) :
    ((fs.sensorData.checkIfEntryExists name = true →
          (fs.sensorData.merge batch).checkIfEntryExists name = true)
        ∧ fs.sensorData.size ≤ (fs.sensorData.merge batch).size)
      ∧ ((fs.sensorData.checkIfEntryExists name = true →
          (fs.controlFan cfg batch now completedAt).sensorData.checkIfEntryExists name = true)
        ∧ fs.sensorData.size ≤ (fs.controlFan cfg batch now completedAt).sensorData.size)
      ∧ ((fs.sensorData.checkIfEntryExists name = true →
          (fs.deliver batch).sensorData.checkIfEntryExists name = true)
        ∧ fs.sensorData.size ≤ (fs.deliver batch).sensorData.size) :=
  ⟨⟨SensorData.checkIfEntryExists_merge batch name fs.sensorData,
      SensorData.size_merge batch fs.sensorData⟩,
    ⟨SensorData.checkIfEntryExists_merge batch name fs.sensorData,
      SensorData.size_merge batch fs.sensorData⟩,
    ⟨SensorData.checkIfEntryExists_merge batch name fs.sensorData,
      SensorData.size_merge batch fs.sensorData⟩⟩

/-- Witness for C10: a batch that updates t1 and brings t2: t1 still exists and
the size goes from 1 to 2. -/
theorem cache_entries_never_evicted_witness :
    (SensorData.merge ⟨[⟨"t1", 40, 10⟩]⟩
        [⟨"t1", 41, 20⟩, ⟨"t2", 45, 20⟩]).checkIfEntryExists "t1" = true
      ∧ (1 : Nat) ≤ (SensorData.merge ⟨[⟨"t1", 40, 10⟩]⟩ [⟨"t1", 41, 20⟩, ⟨"t2", 45, 20⟩]).size :=
  ⟨(cache_entries_never_evicted ⟨[], 10, fun _ _ cs => (0, cs)⟩
      ⟨⟨[⟨"t1", 40, 10⟩]⟩, 0, [], []⟩ [⟨"t1", 41, 20⟩, ⟨"t2", 45, 20⟩] 0 0 "t1").1.1
      (by decide),
    (cache_entries_never_evicted ⟨[], 10, fun _ _ cs => (0, cs)⟩
      ⟨⟨[⟨"t1", 40, 10⟩]⟩, 0, [], []⟩ [⟨"t1", 41, 20⟩, ⟨"t2", 45, 20⟩] 0 0 "t1").1.2⟩

/-! ## Theorems: CmdShowFabric.h -/

theorem foldl_createModelStep (fabricEntries : List (String × FabricEndpoint)) :
    ∀ acc : List FabricEntry,
      fabricEntries.foldl createModelStep acc
        = acc ++ (fabricEntries.filter (fun e => e.2.isAttached)).map
            (fun e => fabricDetailsOf e.1 e.2) := by
  induction fabricEntries with
  | nil => intro acc; simp
  | cons entry rest ih =>
      intro acc
      rw [List.foldl_cons, ih]
      cases hatt : entry.2.isAttached <;>
        simp [createModelStep, List.filter_cons, hatt]

theorem stdSortInsert_perm (comp : FabricEntry → FabricEntry → Bool) (x : FabricEntry) :
    ∀ l : List FabricEntry, (stdSortInsert comp x l).Perm (x :: l) := by
  intro l
  induction l with
  | nil => exact List.Perm.refl _
  | cons y ys ih =>
      unfold stdSortInsert
      split
      · exact List.Perm.refl _
      · exact (List.Perm.cons y ih).trans (List.Perm.swap x y ys)

theorem stdSort_perm (comp : FabricEntry → FabricEntry → Bool) :
    ∀ l : List FabricEntry, (stdSort comp l).Perm l := by
  intro l
  induction l with
  | nil => exact List.Perm.refl _
  | cons x xs ih =>
      unfold stdSort
      exact (stdSortInsert_perm comp x _).trans (List.Perm.cons x ih)

theorem stdSortInsert_pairwise (comp : FabricEntry → FabricEntry → Bool)
    (hasymm : ∀ a b, comp a b = true → comp b a = false)
    (htrans : ∀ a b c, comp a b = true → comp b c = true → comp a c = true)
    (x : FabricEntry) :
    ∀ l : List FabricEntry, l.Pairwise (fun a b => comp b a = false) →
      (stdSortInsert comp x l).Pairwise (fun a b => comp b a = false) := by
  intro l
  induction l with
  | nil => intro _; simp [stdSortInsert]
  | cons y ys ih =>
      intro hl
      rw [List.pairwise_cons] at hl
      unfold stdSortInsert
      by_cases hxy : comp x y = true
      · rw [if_pos hxy]
        refine List.pairwise_cons.2 ⟨?_, List.pairwise_cons.2 hl⟩
        intro z hz
        rcases List.mem_cons.1 hz with hzy | hzys
        · rw [hzy]; exact hasymm x y hxy
        · cases hzx : comp z x with
          | false => rfl
          | true =>
              have hzy := htrans z x y hzx hxy
              rw [hl.1 z hzys] at hzy
              cases hzy
      · rw [if_neg hxy]
        refine List.pairwise_cons.2 ⟨?_, ih hl.2⟩
        intro z hz
        rcases List.mem_cons.1 ((stdSortInsert_perm comp x ys).mem_iff.1 hz) with hzx | hzys
        · rw [hzx]; simpa using hxy
        · exact hl.1 z hzys

theorem stdSort_pairwise (comp : FabricEntry → FabricEntry → Bool)
    (hasymm : ∀ a b, comp a b = true → comp b a = false)
    (htrans : ∀ a b c, comp a b = true → comp b c = true → comp a c = true) :
    ∀ l : List FabricEntry, (stdSort comp l).Pairwise (fun a b => comp b a = false) := by
  intro l
  induction l with
  | nil => simp [stdSort]
  | cons x xs ih =>
      unfold stdSort
      exact stdSortInsert_pairwise comp hasymm htrans x _ ih

theorem StrictWeakOrder.asymm {comp : String → String → Bool} (h : StrictWeakOrder comp)
    (a b : String) (hab : comp a b = true) : comp b a = false := by
  cases hba : comp b a with
  | false => rfl
  | true =>
      have haa := h.trans a b a hab hba
      rw [h.irrefl a] at haa
      cases haa

theorem createModel_entries_perm (comparePortName : String → String → Bool)
    (fabricEntries : List (String × FabricEndpoint)) :
    (createModel comparePortName fabricEntries).fabricEntries.Perm
      ((fabricEntries.filter (fun e => e.2.isAttached)).map
        (fun e => fabricDetailsOf e.1 e.2)) := by
  unfold createModel
  simp only [foldl_createModelStep, List.nil_append]
  exact stdSort_perm _ _

theorem localPort_fabricDetails (fabricEntries : List (String × FabricEndpoint)) :
    (fabricEntries.map (fun e => fabricDetailsOf e.1 e.2)).map FabricEntry.localPort
      = fabricEntries.map Prod.fst := by
  simp [fabricDetailsOf, Function.comp_def]

theorem endpoint_unique_of_nodup_keys :
    ∀ fabricEntries : List (String × FabricEndpoint),
      (fabricEntries.map Prod.fst).Nodup →
      ∀ (key : String) (e1 e2 : FabricEndpoint),
        (key, e1) ∈ fabricEntries → (key, e2) ∈ fabricEntries → e1 = e2 := by
  intro fabricEntries
  induction fabricEntries with
  | nil => intro _ key e1 e2 h1; simp at h1
  | cons entry rest ih =>
      intro hnd key e1 e2 h1 h2
      rw [List.map_cons, List.nodup_cons] at hnd
      have hnot : ∀ e : FabricEndpoint, (key, e) ∈ rest → entry.1 ≠ key := by
        intro e he hk
        apply hnd.1
        rw [hk]
        exact List.mem_map_of_mem Prod.fst he
      rcases List.mem_cons.1 h1 with h1 | h1 <;> rcases List.mem_cons.1 h2 with h2 | h2
      · rw [← h1] at h2
        exact ((Prod.mk.inj h2).2).symm
      · rw [← h1] at hnot
        exact absurd rfl (hnot e2 h2)
      · rw [← h2] at hnot
        exact absurd rfl (hnot e1 h1)
      · exact ih hnd.2 key e1 e2 h1 h2

/-- C11: for every map of fabric endpoints (each key once), and
`comparePortName` a strict weak order, the `localPort` values of the entries
that `createModel` returns are a rearrangement of the keys whose endpoint has
`isAttached` true, each of them once: a key is among them exactly when the map
has it with an attached endpoint, and the number of entries is the number of
attached endpoints; and the entries are ordered by `comparePortName` on
`localPort`: no entry compares before an entry that comes earlier. -/
theorem createModel_localPorts_are_attached_keys_sorted
    (comparePortName : String → String → Bool)
    (fabricEntries : List (String × FabricEndpoint))
    (hkeys : (fabricEntries.map Prod.fst).Nodup)
    (hcompare : StrictWeakOrder comparePortName) :
    ((createModel comparePortName fabricEntries).fabricEntries.map FabricEntry.localPort).Perm
        ((fabricEntries.filter (fun e => e.2.isAttached)).map Prod.fst)
      ∧ ((createModel comparePortName fabricEntries).fabricEntries.map
          FabricEntry.localPort).Nodup
      ∧ (∀ key : String,
          key ∈ (createModel comparePortName fabricEntries).fabricEntries.map
              FabricEntry.localPort
            ↔ ∃ endpoint, (key, endpoint) ∈ fabricEntries ∧ endpoint.isAttached = true)
      ∧ (createModel comparePortName fabricEntries).fabricEntries.length
          = fabricEntries.countP (fun e => e.2.isAttached)
      ∧ (createModel comparePortName fabricEntries).fabricEntries.Pairwise
          (fun earlier later => comparePortName later.localPort earlier.localPort = false) := by
  have hperm := createModel_entries_perm comparePortName fabricEntries
  have hports :
      ((createModel comparePortName fabricEntries).fabricEntries.map FabricEntry.localPort).Perm
        ((fabricEntries.filter (fun e => e.2.isAttached)).map Prod.fst) := by
    rw [← localPort_fabricDetails]
    exact hperm.map _
  have hnodup : ((fabricEntries.filter (fun e => e.2.isAttached)).map Prod.fst).Nodup :=
    hkeys.sublist (List.Sublist.map _ (List.filter_sublist _))
  refine ⟨hports, hports.nodup_iff.2 hnodup, ?_, ?_, ?_⟩
  · intro key
    rw [hports.mem_iff, List.mem_map]
    constructor
    · rintro ⟨⟨k, endpoint⟩, hmem, hk⟩
      rw [List.mem_filter] at hmem
      simp only at hk
      subst hk
      exact ⟨endpoint, hmem.1, hmem.2⟩
    · rintro ⟨endpoint, hmem, hatt⟩
      exact ⟨(key, endpoint), List.mem_filter.2 ⟨hmem, hatt⟩, rfl⟩
  · rw [hperm.length_eq, List.length_map, List.countP_eq_length_filter]
  · unfold createModel
    exact stdSort_pairwise _
      (fun a b hab => hcompare.asymm a.localPort b.localPort hab)
      (fun a b c hab hbc => hcompare.trans a.localPort b.localPort c.localPort hab hbc) _

/-- Witness for C11: three ports, the middle one not attached, compared by the
length of the port name (a strict weak order in which names of one length are
equivalent). -/
theorem createModel_localPorts_are_attached_keys_sorted_witness :
    ((createModel (fun a b => decide (a.length < b.length))
        [("fab1/10/1", ⟨true, 3, 4, some "p", none, none, some 7, none, some "sw"⟩),
         ("fab1/2/1", ⟨false, 0, 0, none, none, none, none, none, none⟩),
         ("fab1/3/1", ⟨true, 5, 6, none, some "sw2", some 5, none, none, none⟩)]).fabricEntries.map
        FabricEntry.localPort).Perm ["fab1/10/1", "fab1/3/1"] :=
  (createModel_localPorts_are_attached_keys_sorted (fun a b => decide (a.length < b.length))
    [("fab1/10/1", ⟨true, 3, 4, some "p", none, none, some 7, none, some "sw"⟩),
     ("fab1/2/1", ⟨false, 0, 0, none, none, none, none, none, none⟩),
     ("fab1/3/1", ⟨true, 5, 6, none, some "sw2", some 5, none, none, none⟩)]
    (by decide)
    ⟨fun a => by simp,
      fun a b c hab hbc => by
        simp only [decide_eq_true_eq] at hab hbc ⊢
        omega,
      fun a b c h1 h2 h3 h4 => by
        simp only [decide_eq_false_iff_not, Nat.not_lt] at h1 h2 h3 h4 ⊢
        omega⟩).1

/-- C12: for every attached endpoint of the map (each key once), the entry
that `createModel` emits for it, the one entry whose `localPort` is its key,
has `remoteSwitchId` and `remotePortId` equal to the endpoint's `switchId` and
`portId`, the four names equal to the endpoint's value when present and empty
otherwise, and the two expected ids equal to the endpoint's value when present
and -1 otherwise; `udpateNametoIdString` appends `"(-)"` for the id -1 and the
id in decimal between brackets for every other id, and keeps the name as a
prefix of the result. -/
theorem createModel_entry_fields_and_id_suffix
    (comparePortName : String → String → Bool)
    (fabricEntries : List (String × FabricEndpoint))
    (key : String) (endpoint : FabricEndpoint) (name : String) (value : Int)
    (hkeys : (fabricEntries.map Prod.fst).Nodup)
    (hmem : (key, endpoint) ∈ fabricEntries)
    (hattached : endpoint.isAttached = true) :
    (∃ e ∈ (createModel comparePortName fabricEntries).fabricEntries,
        e.localPort = key
          ∧ e.remoteSwitchId = endpoint.switchId
          ∧ e.remotePortId = endpoint.portId
          ∧ e.remotePortName = endpoint.portName.getD ""
          ∧ e.remoteSwitchName = endpoint.switchName.getD ""
          ∧ e.expectedRemotePortName = endpoint.expectedPortName.getD ""
          ∧ e.expectedRemoteSwitchName = endpoint.expectedSwitchName.getD ""
          ∧ e.expectedRemoteSwitchId = endpoint.expectedSwitchId.getD (-1)
          ∧ e.expectedRemotePortId = endpoint.expectedPortId.getD (-1)
          ∧ ∀ e2 ∈ (createModel comparePortName fabricEntries).fabricEntries,
              e2.localPort = key → e2 = e)
      ∧ udpateNametoIdString name (-1) = name ++ "(-)"
      ∧ (value ≠ -1 → udpateNametoIdString name value = name ++ "(" ++ toString value ++ ")")
      ∧ List.IsPrefix name.data (udpateNametoIdString name value).data := by
  have hperm := createModel_entries_perm comparePortName fabricEntries
  refine ⟨⟨fabricDetailsOf key endpoint, ?_, rfl, rfl, rfl, ?_, ?_, ?_, ?_, ?_, ?_, ?_⟩,
    ?_, ?_, ?_⟩
  · rw [hperm.mem_iff, List.mem_map]
    exact ⟨(key, endpoint), List.mem_filter.2 ⟨hmem, hattached⟩, rfl⟩
  · cases h : endpoint.portName <;> simp [fabricDetailsOf, h]
  · cases h : endpoint.switchName <;> simp [fabricDetailsOf, h]
  · cases h : endpoint.expectedPortName <;> simp [fabricDetailsOf, h]
  · cases h : endpoint.expectedSwitchName <;> simp [fabricDetailsOf, h]
  · cases h : endpoint.expectedSwitchId <;> simp [fabricDetailsOf, h]
  · cases h : endpoint.expectedPortId <;> simp [fabricDetailsOf, h]
  · intro e2 he2 hport
    rw [hperm.mem_iff, List.mem_map] at he2
    obtain ⟨⟨k, ep⟩, hk, hdef⟩ := he2
    simp only at hdef
    subst hdef
    have hkk : k = key := hport
    subst hkk
    have hmem2 : (k, ep) ∈ fabricEntries := (List.mem_filter.1 hk).1
    rw [endpoint_unique_of_nodup_keys fabricEntries hkeys k ep endpoint hmem2 hmem]
  · simp [udpateNametoIdString]
  · intro hv
    simp [udpateNametoIdString, hv, String.append_assoc]
  · unfold udpateNametoIdString
    simp only [String.data_append]
    exact List.prefix_append _ _

/-- Witness for C12: the attached endpoint at the key `fab1/3/1` of a map of
three, with a switch name and an expected switch id but no port name and no
expected port id. -/
theorem createModel_entry_fields_and_id_suffix_witness :
    ∃ e ∈ (createModel (fun a b => decide (a.length < b.length))
        [("fab1/10/1", ⟨true, 3, 4, some "p", none, none, some 7, none, some "sw"⟩),
         ("fab1/2/1", ⟨false, 0, 0, none, none, none, none, none, none⟩),
         ("fab1/3/1", ⟨true, 5, 6, none, some "sw2", some 5, none, none, none⟩)]).fabricEntries,
      e.localPort = "fab1/3/1" ∧ e.remoteSwitchId = 5 ∧ e.remotePortId = 6
        ∧ e.remotePortName = "" ∧ e.remoteSwitchName = "sw2"
        ∧ e.expectedRemoteSwitchId = 5 ∧ e.expectedRemotePortId = -1 := by
  obtain ⟨e, he, h1, h2, h3, h4, h5, _, _, h8, h9, _⟩ :=
    (createModel_entry_fields_and_id_suffix (fun a b => decide (a.length < b.length))
      [("fab1/10/1", ⟨true, 3, 4, some "p", none, none, some 7, none, some "sw"⟩),
       ("fab1/2/1", ⟨false, 0, 0, none, none, none, none, none, none⟩),
       ("fab1/3/1", ⟨true, 5, 6, none, some "sw2", some 5, none, none, none⟩)]
      "fab1/3/1" ⟨true, 5, 6, none, some "sw2", some 5, none, none, none⟩ "sw2" 5
      (by decide) (by decide) rfl).1
  exact ⟨e, he, h1, h2, h3, h4, h5, h8, h9⟩

/-- C13: two overrides whose scopes overlap without nesting (A constructed, B
constructed, A ended, B ended) leave, with both ended, the mode at A's override
value, whatever the mode before A and whatever B's override value; so there
are modes (a fresh process in `WRITE`, A with `SKIP`, B with `FAIL`) for which
the mode at the end is A's override value and not the mode that was in effect
before A was constructed. -/
theorem overlapping_overrides_end_in_first_override_value :
    (∀ (before a b : HwWriteBehavior) (live : List HwWriteBehaviorRAII),
        HwProc.run [HwOp.construct a, HwOp.construct b, HwOp.destruct 1, HwOp.destruct 0]
            ⟨⟨before⟩, live⟩
          = ⟨⟨a⟩, live⟩)
      ∧ (∀ (s : HwState) (a b : HwWriteBehavior),
          getHwWriteBehavior
              ((HwWriteBehaviorRAII.construct b (HwWriteBehaviorRAII.construct a s).2).1.destruct
                ((HwWriteBehaviorRAII.construct a s).1.destruct
                  (HwWriteBehaviorRAII.construct b (HwWriteBehaviorRAII.construct a s).2).2))
            = a)
      ∧ ∃ a b : HwWriteBehavior,
          (HwProc.run [HwOp.construct a, HwOp.construct b, HwOp.destruct 1, HwOp.destruct 0]
              HwProc.initial).live = []
            ∧ getHwWriteBehavior
                (HwProc.run [HwOp.construct a, HwOp.construct b, HwOp.destruct 1, HwOp.destruct 0]
                  HwProc.initial).hw = a
            ∧ getHwWriteBehavior
                (HwProc.run [HwOp.construct a, HwOp.construct b, HwOp.destruct 1, HwOp.destruct 0]
                  HwProc.initial).hw ≠ getHwWriteBehavior HwProc.initial.hw :=
  ⟨fun _ _ _ _ => rfl, fun _ _ _ => rfl,
    ⟨HwWriteBehavior.SKIP, HwWriteBehavior.FAIL, rfl, rfl, by decide⟩⟩

end Fboss
